import Mathlib

/-!
# Verification of the rgen repository against its specification

Shallow embedding of the `hello-world` package (from
`src/packages/hello-world/src/lib.rs`) and of the RDF/SPARQL-driven
template-generation engine described by the specification.  The engine's
implementation is not part of the visible sources (only its tests and
template/config artifacts are), so its definitions are modelled from the
spec, as marked in their doc comments.
-/

deriving instance DecidableEq for Except

namespace HelloWorldPkg

/-- Rust's `str::trim`: the string with leading and trailing whitespace
removed, embedded over the character list so that it evaluates in the
kernel. -/
def rustTrim (s : String) : String :=
  String.mk (((s.data.dropWhile Char.isWhitespace).reverse.dropWhile Char.isWhitespace).reverse)

/-- Configuration record `HelloConfig` from `hello-world/src/lib.rs`:
fields `greeting : String`, `name : String`, `repeat_count : usize`
(embedded as `Nat`). -/
structure HelloConfig where
  greeting : String
  name : String
  repeat_count : Nat
deriving DecidableEq, Repr

/-- Embedding of `HelloConfig::default()`: greeting "Hello", name "World", repeat_count 1. -/
def HelloConfig.default : HelloConfig :=
  { greeting := "Hello", name := "World", repeat_count := 1 }

/-- The `HelloWorld` struct: holds a `HelloConfig`. -/
structure HelloWorld where
  config : HelloConfig
deriving DecidableEq, Repr

/-- Embedding of `HelloWorld::new(config)`. -/
def HelloWorld.new (config : HelloConfig) : HelloWorld := ⟨config⟩

/-- Embedding of `HelloWorld::greet`: `format!("{} {}!", greeting, name)`. -/
def HelloWorld.greet (h : HelloWorld) : String :=
  h.config.greeting ++ " " ++ h.config.name ++ "!"

/-- Embedding of `HelloWorld::greet_many`:
`(0..repeat_count).map(|i| format!("{} {}! (#{})", greeting, name, i + 1))`. -/
def HelloWorld.greet_many (h : HelloWorld) : List String :=
  (List.range h.config.repeat_count).map
    (fun i => h.config.greeting ++ " " ++ h.config.name ++ "! (#" ++ toString (i + 1) ++ ")")

/-- Embedding of `HelloWorld::validate_config`: errors, in order, when the trimmed
greeting is empty, when the trimmed name is empty, and when
`repeat_count == 0`; otherwise `Ok(())`.  Errors are embedded as their
message strings. -/
def HelloWorld.validate_config (h : HelloWorld) : Except String Unit :=
  if ((rustTrim h.config.greeting).isEmpty : Bool) then
    Except.error "Greeting cannot be empty"
  else if ((rustTrim h.config.name).isEmpty : Bool) then
    Except.error "Name cannot be empty"
  else if h.config.repeat_count = 0 then
    Except.error "Repeat count must be greater than 0"
  else
    Except.ok ()

namespace utils

/-- Embedding of `utils::create_greeting(greeting, name)`. -/
def create_greeting (greeting name : String) : String :=
  greeting ++ " " ++ name ++ "!"

/-- Embedding of `utils::create_multiple_greetings(greeting, name, count)`. -/
def create_multiple_greetings (greeting name : String) (count : Nat) : List String :=
  (List.range count).map
    (fun i => greeting ++ " " ++ name ++ "! (#" ++ toString (i + 1) ++ ")")

/-- Embedding of `utils::validate_greeting_config(greeting, name, count)`: same checks as
`HelloWorld::validate_config` (the zero-count message reads "Count" instead
of "Repeat count"). -/
def validate_greeting_config (greeting name : String) (count : Nat) : Except String Unit :=
  if ((rustTrim greeting).isEmpty : Bool) then
    Except.error "Greeting cannot be empty"
  else if ((rustTrim name).isEmpty : Bool) then
    Except.error "Name cannot be empty"
  else if count = 0 then
    Except.error "Count must be greater than 0"
  else
    Except.ok ()

end utils

end HelloWorldPkg

namespace HelloWorldPkg

/-- C8: `HelloWorld::validate_config` (and likewise
`utils::validate_greeting_config`) returns `Ok(())` if and only if the
greeting is non-empty after trimming whitespace, the name is non-empty after
trimming whitespace, and the repeat count is strictly positive; a
whitespace-only greeting or name is rejected just like an empty one. -/
theorem validate_config_ok_iff (c : HelloConfig) :
    ((HelloWorld.new c).validate_config = Except.ok () ↔
      (rustTrim c.greeting ≠ "" ∧ rustTrim c.name ≠ "" ∧ 0 < c.repeat_count)) ∧
    (utils.validate_greeting_config c.greeting c.name c.repeat_count = Except.ok () ↔
      (rustTrim c.greeting ≠ "" ∧ rustTrim c.name ≠ "" ∧ 0 < c.repeat_count)) := by
  constructor <;>
  · simp only [HelloWorld.new, HelloWorld.validate_config, utils.validate_greeting_config]
    split_ifs with h1 h2 h3 <;>
      simp_all [String.isEmpty_iff, Nat.pos_iff_ne_zero]

/-- C9: `greet_many` returns exactly `repeat_count` strings, the `i`-th being
`"{greeting} {name}! (#{i+1})"`; in particular the empty list when
`repeat_count` is `0`. -/
theorem greet_many_spec (c : HelloConfig) :
    ((HelloWorld.new c).greet_many.length = c.repeat_count) ∧
    (∀ i, i < c.repeat_count →
      (HelloWorld.new c).greet_many[i]? =
        some (c.greeting ++ " " ++ c.name ++ "! (#" ++ toString (i + 1) ++ ")")) ∧
    (c.repeat_count = 0 → (HelloWorld.new c).greet_many = []) := by
  refine ⟨by simp [HelloWorld.new, HelloWorld.greet_many], ?_, ?_⟩
  · intro i hi
    simp [HelloWorld.new, HelloWorld.greet_many, List.getElem?_map, List.getElem?_range, hi]
  · intro h
    simp [HelloWorld.new, HelloWorld.greet_many, h]

/-- Witness for C9 at the configuration of `test_multiple_greetings`. -/
theorem greet_many_spec_witness :
    (0 : Nat) < 3 ∧
      (HelloWorld.new ⟨"Hello", "Test", 3⟩).greet_many[0]? =
        some ("Hello" ++ " " ++ "Test" ++ "! (#" ++ toString (0 + 1) ++ ")") :=
  ⟨by decide, (greet_many_spec ⟨"Hello", "Test", 3⟩).2.1 0 (by decide)⟩

/-- C10: the `HelloWorld` methods and the free functions in `utils`
coincide: `greet` agrees with `create_greeting` and `greet_many` agrees with
`create_multiple_greetings` on every configuration. -/
theorem hello_utils_agree (c : HelloConfig) :
    (HelloWorld.new c).greet = utils.create_greeting c.greeting c.name ∧
    (HelloWorld.new c).greet_many =
      utils.create_multiple_greetings c.greeting c.name c.repeat_count :=
  ⟨rfl, rfl⟩

end HelloWorldPkg

namespace Engine

/-- Modelled from the spec: an RDF object is an IRI or a literal (§3,
"Triple"). IRIs are embedded as already-resolved strings, since the exact
textual grammar is delegated to an external parser collaborator (§6). -/
inductive RdfNode where
  | iri (s : String)
  | lit (s : String)
deriving DecidableEq, Repr

/-- Modelled from the spec: a triple `(subject, predicate, object)` (§3). -/
structure Triple where
  subj : String
  pred : String
  obj : RdfNode
deriving DecidableEq, Repr

/-- Modelled from the spec: the Triple Store holds the loaded triples in
load order; it is append-only during load and read-only thereafter (§3,
§4.1), so a plain list in load order is the whole state. -/
structure Store where
  triples : List Triple
deriving DecidableEq, Repr

/-- Modelled from the spec: `LoadError` (§4.1, §7). `UnresolvedPrefix`
belongs to the textual layer delegated to the external parser; `load` on an
already-resolved triple list only ever reports missing required
predicates. -/
inductive LoadError where
  | MissingRequiredPredicate (subject : String) (expected : String)
  | UnresolvedPrefix (p : String)
deriving DecidableEq, Repr

/-- The type-declaration predicate (`a`, i.e. `rdf:type`). -/
def typePred : String := "a"

/-- Modelled from the spec: the seven recognized categories (§3). -/
def recognizedCategories : List String :=
  ["ex:Entity", "ex:Property", "ex:Relationship", "ex:APIEndpoint",
   "ex:Endpoint", "ex:Table", "ex:Column"]

/-- The subjects declared (via `a`) to be of the given category, in load
order. -/
def subjectsOfType (ts : List Triple) (cat : String) : List String :=
  (ts.filter (fun t => t.pred == typePred && t.obj == RdfNode.iri cat)).map Triple.subj

/-- Number of triples with the given subject and predicate. -/
def countPred (ts : List Triple) (s p : String) : Nat :=
  (ts.filter (fun t => t.subj == s && t.pred == p)).length

/-- Number of triples with the given subject and predicate whose object is
a literal. -/
def countPredLit (ts : List Triple) (s p : String) : Nat :=
  (ts.filter (fun t =>
    t.subj == s && t.pred == p &&
      (match t.obj with | RdfNode.lit _ => true | RdfNode.iri _ => false))).length

/-- Modelled from the spec: load-time validation of one typed subject (§3,
§4.1).  An `ex:Entity` must have at least one `ex:hasProperty` and at least
one `ex:hasRelationship` edge; an `ex:Property` must carry exactly one
`ex:dataType` literal.  The other five categories have analogous checks the
spec leaves unenumerated, so the model requires nothing further of them. -/
def checkSubject (ts : List Triple) (cat s : String) : Option LoadError :=
  if cat == "ex:Entity" then
    if countPred ts s "ex:hasProperty" == 0 then
      some (LoadError.MissingRequiredPredicate s "ex:hasProperty")
    else if countPred ts s "ex:hasRelationship" == 0 then
      some (LoadError.MissingRequiredPredicate s "ex:hasRelationship")
    else none
  else if cat == "ex:Property" then
    if countPredLit ts s "ex:dataType" != 1 then
      some (LoadError.MissingRequiredPredicate s "ex:dataType")
    else none
  else none

/-- First invariant violation among the subjects of one category. -/
def validateCategory (ts : List Triple) (cat : String) : Option LoadError :=
  (subjectsOfType ts cat).findSome? (checkSubject ts cat)

/-- Modelled from the spec: load-time validation walks every subject typed
as one of the seven recognized categories and reports the first missing
required companion predicate (§4.1). -/
def validateTriples (ts : List Triple) : Option LoadError :=
  recognizedCategories.findSome? (validateCategory ts)

/-- Modelled from the spec: `load(source) -> Store | LoadError` (§4.1),
taking the already-resolved triple list as input (§6). -/
def load (ts : List Triple) : Except LoadError Store :=
  match validateTriples ts with
  | some e => Except.error e
  | none => Except.ok ⟨ts⟩

theorem checkSubject_entity_none {ts : List Triple} {s : String}
    (h : checkSubject ts "ex:Entity" s = none) :
    0 < countPred ts s "ex:hasProperty" ∧ 0 < countPred ts s "ex:hasRelationship" := by
  simp only [checkSubject, beq_self_eq_true, if_true] at h
  split at h
  · exact absurd h (by simp)
  · split at h
    · exact absurd h (by simp)
    · constructor <;> simp_all [Nat.pos_iff_ne_zero]

theorem checkSubject_property_none {ts : List Triple} {s : String}
    (h : checkSubject ts "ex:Property" s = none) :
    countPredLit ts s "ex:dataType" = 1 := by
  have hPE : ("ex:Property" == "ex:Entity") = false := by decide
  simp [checkSubject, hPE] at h
  exact h

theorem checkSubject_some_shape {ts : List Triple} {cat s : String} {e : LoadError}
    (h : checkSubject ts cat s = some e) :
    ∃ subj expected, e = LoadError.MissingRequiredPredicate subj expected := by
  simp only [checkSubject] at h
  split at h
  · split at h
    · exact ⟨s, "ex:hasProperty", by simp_all⟩
    · split at h
      · exact ⟨s, "ex:hasRelationship", by simp_all⟩
      · simp_all
  · split at h
    · split at h
      · exact ⟨s, "ex:dataType", by simp_all⟩
      · simp_all
    · simp_all

theorem checkSubject_entity_some_of_missing {ts : List Triple} {s : String}
    (h : countPred ts s "ex:hasProperty" = 0 ∨ countPred ts s "ex:hasRelationship" = 0) :
    checkSubject ts "ex:Entity" s ≠ none := by
  simp only [checkSubject, beq_self_eq_true, if_true]
  rcases h with h | h <;> simp [h] <;> split <;> simp

theorem checkSubject_property_some_of_missing {ts : List Triple} {s : String}
    (h : countPredLit ts s "ex:dataType" ≠ 1) :
    checkSubject ts "ex:Property" s ≠ none := by
  simp only [checkSubject]
  have h2 : ("ex:Property" == "ex:Entity") = false := by decide
  simp [h2]
  exact h

theorem validateTriples_some_of_category {ts : List Triple} {cat : String}
    (hcat : cat ∈ recognizedCategories) (hv : validateCategory ts cat ≠ none) :
    validateTriples ts ≠ none := by
  intro hnone
  exact hv ((List.findSome?_eq_none_iff.mp hnone) cat hcat)

theorem validateCategory_some_of_subject {ts : List Triple} {cat s : String}
    (hs : s ∈ subjectsOfType ts cat) (hv : checkSubject ts cat s ≠ none) :
    validateCategory ts cat ≠ none := by
  intro hnone
  exact hv ((List.findSome?_eq_none_iff.mp hnone) s hs)

theorem validateTriples_shape {ts : List Triple} {e : LoadError}
    (h : validateTriples ts = some e) :
    ∃ subj expected, e = LoadError.MissingRequiredPredicate subj expected := by
  obtain ⟨cat, _, hc⟩ := List.exists_of_findSome?_eq_some h
  obtain ⟨s, _, hcs⟩ := List.exists_of_findSome?_eq_some hc
  exact checkSubject_some_shape hcs

/-- C1: if `load` succeeds then every subject typed as one of the seven
recognized categories has its required companion predicates: every Entity
has at least one `ex:hasProperty` and at least one `ex:hasRelationship`
edge, and every Property carries exactly one `ex:dataType` literal; and a
triple list missing a required companion predicate fails at load time with
`LoadError.MissingRequiredPredicate`. -/
theorem load_checks_required_predicates (ts : List Triple) :
    (∀ st, load ts = Except.ok st →
      st.triples = ts ∧
      (∀ s ∈ subjectsOfType ts "ex:Entity",
        0 < countPred ts s "ex:hasProperty" ∧ 0 < countPred ts s "ex:hasRelationship") ∧
      (∀ s ∈ subjectsOfType ts "ex:Property", countPredLit ts s "ex:dataType" = 1)) ∧
    (((∃ s ∈ subjectsOfType ts "ex:Entity",
        countPred ts s "ex:hasProperty" = 0 ∨ countPred ts s "ex:hasRelationship" = 0) ∨
      (∃ s ∈ subjectsOfType ts "ex:Property", countPredLit ts s "ex:dataType" ≠ 1)) →
      ∃ subj expected,
        load ts = Except.error (LoadError.MissingRequiredPredicate subj expected)) := by
  constructor
  · intro st hok
    have hnone : validateTriples ts = none := by
      unfold load at hok
      cases h : validateTriples ts with
      | some e => rw [h] at hok; exact absurd hok (by simp)
      | none => rfl
    have hts : st.triples = ts := by
      unfold load at hok
      rw [hnone] at hok
      cases hok
      rfl
    have hcats := List.findSome?_eq_none_iff.mp hnone
    refine ⟨hts, ?_, ?_⟩
    · intro s hs
      have hcat : validateCategory ts "ex:Entity" = none :=
        hcats "ex:Entity" (by simp [recognizedCategories])
      exact checkSubject_entity_none ((List.findSome?_eq_none_iff.mp hcat) s hs)
    · intro s hs
      have hcat : validateCategory ts "ex:Property" = none :=
        hcats "ex:Property" (by simp [recognizedCategories])
      exact checkSubject_property_none ((List.findSome?_eq_none_iff.mp hcat) s hs)
  · intro hviol
    have hsome : validateTriples ts ≠ none := by
      rcases hviol with ⟨s, hs, hmiss⟩ | ⟨s, hs, hmiss⟩
      · exact validateTriples_some_of_category (by simp [recognizedCategories])
          (validateCategory_some_of_subject hs (checkSubject_entity_some_of_missing hmiss))
      · exact validateTriples_some_of_category (by simp [recognizedCategories])
          (validateCategory_some_of_subject hs (checkSubject_property_some_of_missing hmiss))
    cases h : validateTriples ts with
    | none => exact absurd h hsome
    | some e =>
      obtain ⟨subj, expected, he⟩ := validateTriples_shape h
      refine ⟨subj, expected, ?_⟩
      unfold load
      rw [h, he]

/-- A one-entity description missing its `ex:hasRelationship` edge. -/
def badDescription : List Triple :=
  [⟨"ex:User", typePred, RdfNode.iri "ex:Entity"⟩,
   ⟨"ex:User", "ex:hasProperty", RdfNode.iri "ex:email"⟩]

/-- The same description with the missing edge added. -/
def goodDescription : List Triple :=
  [⟨"ex:User", typePred, RdfNode.iri "ex:Entity"⟩,
   ⟨"ex:User", "ex:hasProperty", RdfNode.iri "ex:email"⟩,
   ⟨"ex:User", "ex:hasRelationship", RdfNode.iri "ex:hasProfile"⟩]

/-- Witness for C1: `badDescription` is rejected with
`MissingRequiredPredicate`, and `goodDescription` loads with its entity
invariants established. -/
theorem load_checks_required_predicates_witness :
    (∃ subj expected,
      load badDescription =
        Except.error (LoadError.MissingRequiredPredicate subj expected)) ∧
    (∀ s ∈ subjectsOfType goodDescription "ex:Entity",
      0 < countPred goodDescription s "ex:hasProperty" ∧
      0 < countPred goodDescription s "ex:hasRelationship") :=
  ⟨(load_checks_required_predicates badDescription).2
      (Or.inl ⟨"ex:User", by decide, Or.inr (by decide)⟩),
   ((load_checks_required_predicates goodDescription).1
      (Store.mk goodDescription) (by decide)).2.1⟩

/-- Modelled from the spec: a triple-pattern component is a variable
placeholder or a fixed node (§3, "Query"). -/
inductive Term where
  | var (v : String)
  | node (n : RdfNode)
deriving DecidableEq, Repr

/-- Modelled from the spec: a triple pattern (§3). -/
structure TriplePattern where
  subj : Term
  pred : Term
  obj : Term
deriving DecidableEq, Repr

/-- A partial binding of query variables, in the order they were bound. -/
abbrev Binding : Type := List (String × RdfNode)

/-- Value bound to a variable, if any. -/
def Binding.lookup (b : Binding) (v : String) : Option RdfNode :=
  (List.find? (fun p => p.1 == v) b).map Prod.snd

/-- Modelled from the spec: matching one pattern component against one
triple component under a partial binding — a fixed node must coincide, a
variable already bound must agree (join semantics, §3), an unbound variable
is bound. -/
def matchTerm (b : Binding) (t : Term) (v : RdfNode) : Option Binding :=
  match t with
  | Term.node n => if n == v then some b else none
  | Term.var x =>
    match b.lookup x with
    | some u => if u == v then some b else none
    | none => some (b ++ [(x, v)])

/-- Matching a whole pattern against a whole triple. -/
def matchPattern (b : Binding) (p : TriplePattern) (t : Triple) : Option Binding :=
  (matchTerm b p.subj (RdfNode.iri t.subj)).bind fun b1 =>
    (matchTerm b1 p.pred (RdfNode.iri t.pred)).bind fun b2 =>
      matchTerm b2 p.obj t.obj

/-- Modelled from the spec: one stage of the iterative nested-loop join
(§4.2) — for every existing partial binding, scan the store in load order
and extend or discard. -/
def joinStep (ts : List Triple) (bs : List Binding) (p : TriplePattern) : List Binding :=
  bs.flatMap fun b => ts.filterMap (matchPattern b p)

/-- All satisfying bindings of a pattern list, in discovery order (§4.2). -/
def evalPatterns (ts : List Triple) (ps : List TriplePattern) : List Binding :=
  ps.foldl (joinStep ts) [[]]

/-- Modelled from the spec: a named query with its patterns and projected
variables in declaration order (§3). -/
structure Query where
  name : String
  patterns : List TriplePattern
  projected : List String
deriving DecidableEq, Repr

/-- Modelled from the spec: `QueryError` (§4.2, §7). -/
inductive QueryError where
  | UnboundVariable (v : String)
deriving DecidableEq, Repr

/-- A result row: projected variable name to bound value, in declaration
order (§3). -/
abbrev Row : Type := List (String × RdfNode)

/-- An ordered result set (§3). -/
abbrev ResultSet : Type := List Row

/-- Projection of one satisfying binding onto the projected variables; an
unbound projected variable is `QueryError.UnboundVariable` (§4.2). -/
def projectRow (vars : List String) (b : Binding) : Except QueryError Row :=
  vars.mapM fun v =>
    match b.lookup v with
    | some n => Except.ok (v, n)
    | none => Except.error (QueryError.UnboundVariable v)

/-- Modelled from the spec: `evaluate(store, query) -> ResultSet` (§4.2),
row order being the discovery order of the final join stage over the
store's load-order iteration. -/
def evaluate (store : Store) (q : Query) : Except QueryError ResultSet :=
  (evalPatterns store.triples q.patterns).mapM (projectRow q.projected)

/-- C2: query evaluation is deterministic — the same query evaluated twice
against the same store yields the same rows in the same order, and the
result depends only on the store's load-order triple sequence. -/
theorem evaluate_deterministic (s1 s2 : Store) (q : Query) :
    evaluate s1 q = evaluate s1 q ∧
    (s1.triples = s2.triples → evaluate s1 q = evaluate s2 q) := by
  refine ⟨rfl, fun h => ?_⟩
  unfold evaluate
  rw [h]

/-- Witness for C2 on a two-triple store and a one-pattern query. -/
theorem evaluate_deterministic_witness :
    evaluate ⟨badDescription⟩ ⟨"find_entities",
        [⟨Term.var "entity", Term.node (RdfNode.iri typePred),
          Term.node (RdfNode.iri "ex:Entity")⟩], ["entity"]⟩ =
      evaluate ⟨badDescription⟩ ⟨"find_entities",
        [⟨Term.var "entity", Term.node (RdfNode.iri typePred),
          Term.node (RdfNode.iri "ex:Entity")⟩], ["entity"]⟩ :=
  (evaluate_deterministic ⟨badDescription⟩ ⟨badDescription⟩ _).2 rfl

/-- Modelled from the spec: `RenderError` (§4.4, §7): missing variable,
unknown filter, out-of-range row access, plus a wrapper for a query that
fails during step 2 and a lookup of a result-set name that was never
bound. -/
inductive RenderError where
  | MissingVariable (v : String)
  | UnknownFilter (name : String)
  | RowIndexOutOfRange (index : Nat)
  | UnknownQueryName (name : String)
  | QueryFailed (e : QueryError)
deriving DecidableEq, Repr

/-- Modelled from the spec: `sparql_count(name)` → row count (§4.4). -/
def sparql_count (rs : ResultSet) : Nat := rs.length

/-- Modelled from the spec: `sparql_first(name)` → first row or the
empty-marker `none` (§4.4). -/
def sparql_first (rs : ResultSet) : Option Row := rs.head?

/-- Modelled from the spec: `sparql_values(name, var)` → the variable's
bound values across rows, in row order (§4.4). -/
def sparql_values (rs : ResultSet) (v : String) : List (Option RdfNode) :=
  rs.map (fun r => Binding.lookup r v)

/-- Modelled from the spec: `sparql_column` is `sparql_values` aliased for
column-style access (§4.4). -/
def sparql_column (rs : ResultSet) (v : String) : List (Option RdfNode) :=
  sparql_values rs v

/-- Modelled from the spec: `sparql_empty(name)` → boolean (§4.4). -/
def sparql_empty (rs : ResultSet) : Bool := rs.isEmpty

/-- Modelled from the spec: `sparql_row(name, index)` → the row at that
0-based index, `RenderError.RowIndexOutOfRange` if out of range (§4.4). -/
def sparql_row (rs : ResultSet) (i : Nat) : Except RenderError Row :=
  match rs[i]? with
  | some r => Except.ok r
  | none => Except.error (RenderError.RowIndexOutOfRange i)

/-- C6: on an empty result set, `sparql_count` returns `0`, `sparql_empty`
returns `true`, and `sparql_row` at index `0` fails with
`RowIndexOutOfRange`; in general `sparql_row` errors exactly when the index
is not below the row count. -/
theorem sparql_helpers_empty_spec (rs : ResultSet) :
    (rs = [] →
      sparql_count rs = 0 ∧ sparql_empty rs = true ∧
      sparql_row rs 0 = Except.error (RenderError.RowIndexOutOfRange 0)) ∧
    (∀ i, sparql_row rs i = Except.error (RenderError.RowIndexOutOfRange i) ↔
      ¬ i < sparql_count rs) := by
  constructor
  · rintro rfl
    exact ⟨rfl, rfl, rfl⟩
  · intro i
    unfold sparql_row sparql_count
    cases h : rs[i]? with
    | some r =>
      have := List.getElem?_eq_some_iff.mp h
      simp only [h]
      constructor
      · intro he; exact absurd he (by simp)
      · intro hge; exact absurd this.1 hge
    | none =>
      have := List.getElem?_eq_none_iff.mp h
      simp only [h]
      exact ⟨fun _ => by omega, fun _ => trivial⟩

/-- Witness for C6 at the empty result set and index `0`. -/
theorem sparql_helpers_empty_spec_witness :
    sparql_count ([] : ResultSet) = 0 ∧ sparql_empty ([] : ResultSet) = true ∧
      sparql_row ([] : ResultSet) 0 = Except.error (RenderError.RowIndexOutOfRange 0) :=
  (sparql_helpers_empty_spec ([] : ResultSet)).1 rfl

/-- Splitting a character list at identifier separators (`_` and `-`). -/
def splitCharsAux : List Char → List Char → List (List Char)
  | [], acc => [acc.reverse]
  | c :: rest, acc =>
    if c == '_' || c == '-' then acc.reverse :: splitCharsAux rest []
    else splitCharsAux rest (c :: acc)

/-- Words of an identifier: maximal non-empty runs between `_` and `-`
separators, embedded over the character list so that it evaluates in the
kernel. -/
def splitWords (s : String) : List String :=
  ((splitCharsAux s.data []).map String.mk).filter (fun w => !w.isEmpty)

/-- Character-wise lower-casing (kernel-evaluable `to_lowercase`). -/
def lowerString (s : String) : String := String.mk (s.data.map Char.toLower)

/-- Character-wise upper-casing (kernel-evaluable `to_uppercase`). -/
def upperString (s : String) : String := String.mk (s.data.map Char.toUpper)

/-- Joining words with a separator. -/
def joinSep (sep : String) : List String → String
  | [] => ""
  | [w] => w
  | w :: ws => w ++ sep ++ joinSep sep ws

/-- First character upper-cased, the rest lower-cased. -/
def capitalizeWord (w : String) : String :=
  match w.data with
  | [] => ""
  | c :: rest => String.mk (c.toUpper :: rest.map Char.toLower)

/-- Modelled from the spec: the `camel` filter — first word lower-cased,
later words capitalized, concatenated (§4.4; `hello_world` ↦
`helloWorld`). -/
def camelCase (s : String) : String :=
  match splitWords s with
  | [] => ""
  | w :: ws => lowerString w ++ String.join (ws.map capitalizeWord)

/-- Modelled from the spec: the `pascal` filter — every word capitalized,
concatenated (`hello_world` ↦ `HelloWorld`). -/
def pascalCase (s : String) : String :=
  String.join ((splitWords s).map capitalizeWord)

/-- Modelled from the spec: the `snake` filter — lower-cased words joined
with `_`. -/
def snakeCase (s : String) : String :=
  joinSep "_" ((splitWords s).map lowerString)

/-- Modelled from the spec: the `kebab` filter — lower-cased words joined
with `-`. -/
def kebabCase (s : String) : String :=
  joinSep "-" ((splitWords s).map lowerString)

/-- Modelled from the spec: the `title` filter — capitalized words joined
with spaces (`hello_world` ↦ `Hello World`, per `test_template_filters`). -/
def titleCase (s : String) : String :=
  joinSep " " ((splitWords s).map capitalizeWord)

/-- Modelled from the spec: the supported filter names (§4.4). -/
def supportedFilters : List String :=
  ["camel", "pascal", "snake", "kebab", "title", "upper", "lower"]

/-- Modelled from the spec: applying one filter by name; an unknown name is
`RenderError.UnknownFilter` (§4.4). -/
def applyFilter (name : String) (s : String) : Except RenderError String :=
  if name = "camel" then Except.ok (camelCase s)
  else if name = "pascal" then Except.ok (pascalCase s)
  else if name = "snake" then Except.ok (snakeCase s)
  else if name = "kebab" then Except.ok (kebabCase s)
  else if name = "title" then Except.ok (titleCase s)
  else if name = "upper" then Except.ok (upperString s)
  else if name = "lower" then Except.ok (lowerString s)
  else Except.error (RenderError.UnknownFilter name)

/-- Modelled from the spec: filters compose left-to-right (§4.4). -/
def applyFilters (names : List String) (s : String) : Except RenderError String :=
  names.foldlM (fun acc n => applyFilter n acc) s

/-- Modelled from the spec: one segment of a template body or of the `to`
expression — literal text, a `{{ var | filters }}` expression (§4.4 step
3), or a result-inspection helper applied to a bound result-set name (§4.4
step 4). -/
inductive BodySeg where
  | text (s : String)
  | expr (v : String) (filters : List String)
  | helperCount (qname : String)
  | helperEmpty (qname : String)
  | helperRow (qname : String) (index : Nat)
deriving DecidableEq, Repr

/-- Modelled from the spec: the Template Document (§3) — output-path
expression, frontmatter variable defaults, named queries, and body.  The
textual frontmatter grammar and the namespace table are handled by the
parsing layer (§4.3) and are not needed by `render`. -/
structure TemplateDocument where
  to_expr : List BodySeg
  vars : List (String × String)
  sparql : List (String × Query)
  body : List BodySeg
deriving DecidableEq, Repr

/-- Modelled from the spec: `RenderedOutput` — the resolved output path and
the rendered body (§4.4). -/
structure RenderedOutput where
  output_path : String
  rendered_body : String
deriving DecidableEq, Repr

/-- Modelled from the spec: variable resolution (§4.4 step 1) — external
overrides take precedence over frontmatter defaults. -/
def resolveVar (ext defaults : List (String × String)) (v : String) :
    Except RenderError String :=
  match (List.find? (fun p => p.1 == v) ext).map Prod.snd with
  | some x => Except.ok x
  | none =>
    match (List.find? (fun p => p.1 == v) defaults).map Prod.snd with
    | some x => Except.ok x
    | none => Except.error (RenderError.MissingVariable v)

/-- Display of a bound value inside rendered text. -/
def nodeText : RdfNode → String
  | RdfNode.iri s => s
  | RdfNode.lit s => s

/-- Display of a result row inside rendered text. -/
def rowText (r : Row) : String :=
  joinSep ", " (r.map (fun p => nodeText p.2))

/-- Result set bound under a query name (§4.4 step 2 exposes a lookup table
from query name to ResultSet). -/
def lookupResults (qenv : List (String × ResultSet)) (qname : String) :
    Except RenderError ResultSet :=
  match (List.find? (fun p => p.1 == qname) qenv).map Prod.snd with
  | some rs => Except.ok rs
  | none => Except.error (RenderError.UnknownQueryName qname)

/-- Modelled from the spec: rendering one segment (§4.4 steps 3–4). -/
def renderSeg (ext defaults : List (String × String))
    (qenv : List (String × ResultSet)) : BodySeg → Except RenderError String
  | BodySeg.text s => Except.ok s
  | BodySeg.expr v fs =>
    (resolveVar ext defaults v).bind (applyFilters fs)
  | BodySeg.helperCount q =>
    (lookupResults qenv q).map (fun rs => toString (sparql_count rs))
  | BodySeg.helperEmpty q =>
    (lookupResults qenv q).map (fun rs => if sparql_empty rs then "true" else "false")
  | BodySeg.helperRow q i =>
    (lookupResults qenv q).bind (fun rs => (sparql_row rs i).map rowText)

/-- Modelled from the spec: evaluation of the named queries against the
store (§4.4 step 2); a query failure surfaces as a render failure. -/
def evalNamedQueries (store : Store) : List (String × Query) →
    Except RenderError (List (String × ResultSet))
  | [] => Except.ok []
  | nq :: rest =>
    match evaluate store nq.2 with
    | Except.error e => Except.error (RenderError.QueryFailed e)
    | Except.ok rs =>
      match evalNamedQueries store rest with
      | Except.error e => Except.error e
      | Except.ok l => Except.ok ((nq.1, rs) :: l)

/-- Modelled from the spec: `render(document, store, external_vars) ->
RenderedOutput | RenderError` (§4.4): resolve variables, evaluate the named
queries, expand the body, then evaluate the `to` expression. -/
def render (doc : TemplateDocument) (store : Store) (ext : List (String × String)) :
    Except RenderError RenderedOutput :=
  (evalNamedQueries store doc.sparql).bind fun qenv =>
    ((doc.body.mapM (renderSeg ext doc.vars qenv)).map String.join).bind fun body =>
      ((doc.to_expr.mapM (renderSeg ext doc.vars qenv)).map String.join).map fun path =>
        ⟨path, body⟩

/-- A document whose body is solely `{{ name | f }}`, with no frontmatter
defaults and no named queries, writing to a fixed path. -/
def singleExprDoc (f : String) : TemplateDocument :=
  ⟨[BodySeg.text "out.rs"], [], [], [BodySeg.expr "name" [f]]⟩

/-- The empty store. -/
def emptyStore : Store := ⟨[]⟩

/-- C5: rendering a template whose body is solely `{{ name | pascal }}`
with `name = "hello_world"` yields `HelloWorld`; `kebab` yields
`hello-world`; `snake` yields `hello_world`; `camel` yields `helloWorld`;
and a filter name outside the supported set fails with
`RenderError.UnknownFilter`. -/
theorem filter_roundtrip_spec :
    (render (singleExprDoc "pascal") emptyStore [("name", "hello_world")] =
      Except.ok ⟨"out.rs", "HelloWorld"⟩) ∧
    (render (singleExprDoc "kebab") emptyStore [("name", "hello_world")] =
      Except.ok ⟨"out.rs", "hello-world"⟩) ∧
    (render (singleExprDoc "snake") emptyStore [("name", "hello_world")] =
      Except.ok ⟨"out.rs", "hello_world"⟩) ∧
    (render (singleExprDoc "camel") emptyStore [("name", "hello_world")] =
      Except.ok ⟨"out.rs", "helloWorld"⟩) ∧
    (∀ f s, f ∉ supportedFilters →
      applyFilter f s = Except.error (RenderError.UnknownFilter f)) := by
  refine ⟨by decide, by decide, by decide, by decide, ?_⟩
  intro f s hf
  simp only [supportedFilters, List.mem_cons, List.not_mem_nil, or_false, not_or] at hf
  obtain ⟨h1, h2, h3, h4, h5, h6, h7⟩ := hf
  simp only [applyFilter, if_neg h1, if_neg h2, if_neg h3, if_neg h4, if_neg h5,
    if_neg h6, if_neg h7]

/-- Witness for C5 at the unsupported filter name `upper_camel`. -/
theorem filter_roundtrip_spec_witness :
    "upper_camel" ∉ supportedFilters ∧
      applyFilter "upper_camel" "hello_world" =
        Except.error (RenderError.UnknownFilter "upper_camel") :=
  ⟨by decide, filter_roundtrip_spec.2.2.2.2 "upper_camel" "hello_world" (by decide)⟩

/-- One query evaluation viewed as a state transformer on the store: the
Query Engine only reads the frozen store (§4.1, §5), so the store component
it hands back is the one it received. -/
def evaluateS (store : Store) (q : Query) :
    Except QueryError ResultSet × Store :=
  (evaluate store q, store)

/-- Step 2 of `render` viewed as a state transformer on the store,
threading the store returned by each query evaluation into the next. -/
def evalNamedQueriesS (qs : List (String × Query)) (store : Store) :
    Except RenderError (List (String × ResultSet)) × Store :=
  match qs with
  | [] => (Except.ok [], store)
  | nq :: rest =>
    match evaluateS store nq.2 with
    | (Except.error e, st1) => (Except.error (RenderError.QueryFailed e), st1)
    | (Except.ok rs, st1) =>
      match evalNamedQueriesS rest st1 with
      | (Except.error e, st2) => (Except.error e, st2)
      | (Except.ok l, st2) => (Except.ok ((nq.1, rs) :: l), st2)

/-- The renderer viewed as a state transformer on the store: the only stateful
step is query evaluation (steps 3–5 consume the already-bound results). -/
def renderS (doc : TemplateDocument) (store : Store) (ext : List (String × String)) :
    Except RenderError RenderedOutput × Store :=
  match evalNamedQueriesS doc.sparql store with
  | (Except.error e, st1) => (Except.error e, st1)
  | (Except.ok qenv, st1) =>
    (((doc.body.mapM (renderSeg ext doc.vars qenv)).map String.join).bind fun body =>
      ((doc.to_expr.mapM (renderSeg ext doc.vars qenv)).map String.join).map fun path =>
        (⟨path, body⟩ : RenderedOutput), st1)

theorem evalNamedQueriesS_spec (qs : List (String × Query)) (store : Store) :
    evalNamedQueriesS qs store = (evalNamedQueries store qs, store) := by
  induction qs with
  | nil => rfl
  | cons nq rest ih =>
    simp only [evalNamedQueriesS, evaluateS, evalNamedQueries]
    cases hq : evaluate store nq.2 with
    | error e => dsimp only
    | ok rs =>
      dsimp only
      rw [ih]
      cases hr : evalNamedQueries store rest with
      | error e => dsimp only
      | ok l => dsimp only

/-- C7: `render` is pure in `(document, store, external_vars)`: run as a
state transformer it returns the store unchanged, its result is the pure
`render` of its inputs, and two calls with equal inputs give equal results
(same output path and rendered body, or the same error). -/
theorem render_pure (doc : TemplateDocument) (store : Store)
    (ext : List (String × String)) :
    (renderS doc store ext).2 = store ∧
    (renderS doc store ext).1 = render doc store ext ∧
    (∀ doc2 store2 ext2, doc = doc2 → store = store2 → ext = ext2 →
      render doc store ext = render doc2 store2 ext2) := by
  refine ⟨?_, ?_, ?_⟩
  · unfold renderS
    rw [evalNamedQueriesS_spec]
    cases h : evalNamedQueries store doc.sparql <;> simp
  · unfold renderS render
    rw [evalNamedQueriesS_spec]
    cases h : evalNamedQueries store doc.sparql <;> simp [Except.bind]
  · intro doc2 store2 ext2 h1 h2 h3
    rw [h1, h2, h3]

/-- Witness for C7 at the pascal-filter document over the empty store. -/
theorem render_pure_witness :
    (renderS (singleExprDoc "pascal") emptyStore [("name", "hello_world")]).2 =
      emptyStore ∧
    render (singleExprDoc "pascal") emptyStore [("name", "hello_world")] =
      render (singleExprDoc "pascal") emptyStore [("name", "hello_world")] :=
  ⟨(render_pure (singleExprDoc "pascal") emptyStore [("name", "hello_world")]).1,
   (render_pure (singleExprDoc "pascal") emptyStore [("name", "hello_world")]).2.2
     (singleExprDoc "pascal") emptyStore [("name", "hello_world")] rfl rfl rfl⟩

/-- Modelled from the spec: states of a phase (§4.5). -/
inductive PhaseStatus where
  | Pending
  | Running
  | Succeeded
  | Failed
  | Skipped
deriving DecidableEq, Repr

/-- The successful output of one template's render, if any. -/
def okOutput : Except RenderError RenderedOutput → Option RenderedOutput
  | Except.ok o => some o
  | Except.error _ => none

/-- The error of one template's render, if any. -/
def errOutput : Except RenderError RenderedOutput → Option RenderError
  | Except.ok _ => none
  | Except.error e => some e

/-- Modelled from the spec: a `generate` phase renders each assigned
template (§4.5); a failure of one template does not abort its siblings, so
the per-template results are simply all of them, in template order. -/
def runGenerateTemplates (store : Store) (ext : List (String × String))
    (tmpls : List TemplateDocument) : List (Except RenderError RenderedOutput) :=
  tmpls.map (fun d => render d store ext)

/-- Modelled from the spec: the phase outcome — the successful outputs,
every per-template error reported together, and the terminal status
(§4.5, §7). -/
structure PhaseOutcome where
  outputs : List RenderedOutput
  errors : List RenderError
  status : PhaseStatus
deriving DecidableEq, Repr

/-- Modelled from the spec: collecting a `generate` phase's per-template
results — all successes, all errors, `Failed` as soon as any template
failed (§4.5). -/
def collectGeneratePhase (results : List (Except RenderError RenderedOutput)) :
    PhaseOutcome :=
  ⟨results.filterMap okOutput, results.filterMap errOutput,
   if results.all (fun r => (okOutput r).isSome) then PhaseStatus.Succeeded
   else PhaseStatus.Failed⟩

/-- Modelled from the spec: running one `generate` phase (§4.5). -/
def runGeneratePhase (store : Store) (ext : List (String × String))
    (tmpls : List TemplateDocument) : PhaseOutcome :=
  collectGeneratePhase (runGenerateTemplates store ext tmpls)

/-- C4: if one template of a `generate` phase fails to render, every
sibling template still renders (the per-template results are exactly the
renders, one per template, in order), the phase's terminal status is
`Failed`, and the phase outcome collects every successful output and every
per-template error, not only the first failure. -/
theorem generate_phase_partial_failure (store : Store) (ext : List (String × String))
    (tmpls : List TemplateDocument)
    (h : ∃ d ∈ tmpls, (render d store ext).isOk = false) :
    (runGenerateTemplates store ext tmpls).length = tmpls.length ∧
    (∀ i, i < tmpls.length →
      (runGenerateTemplates store ext tmpls)[i]? =
        (tmpls[i]?).map (fun d => render d store ext)) ∧
    (runGeneratePhase store ext tmpls).status = PhaseStatus.Failed ∧
    (∀ d ∈ tmpls, ∀ e, render d store ext = Except.error e →
      e ∈ (runGeneratePhase store ext tmpls).errors) ∧
    (∀ d ∈ tmpls, ∀ o, render d store ext = Except.ok o →
      o ∈ (runGeneratePhase store ext tmpls).outputs) := by
  refine ⟨by simp [runGenerateTemplates], ?_, ?_, ?_, ?_⟩
  · intro i hi
    simp [runGenerateTemplates, List.getElem?_map]
  · obtain ⟨d, hd, hfail⟩ := h
    simp only [runGeneratePhase, collectGeneratePhase]
    rw [if_neg]
    intro hall
    have := (List.all_eq_true.mp hall) (render d store ext)
      (by exact List.mem_map.mpr ⟨d, hd, rfl⟩)
    cases hre : render d store ext with
    | ok o => rw [hre] at hfail; exact absurd hfail (by simp [Except.isOk, Except.toBool])
    | error e => rw [hre] at this; exact absurd this (by simp [okOutput])
  · intro d hd e hre
    simp only [runGeneratePhase, collectGeneratePhase]
    exact List.mem_filterMap.mpr
      ⟨render d store ext, List.mem_map.mpr ⟨d, hd, rfl⟩, by simp [errOutput, hre]⟩
  · intro d hd o hro
    simp only [runGeneratePhase, collectGeneratePhase]
    exact List.mem_filterMap.mpr
      ⟨render d store ext, List.mem_map.mpr ⟨d, hd, rfl⟩, by simp [okOutput, hro]⟩

/-- The two-template phase of the C4 witness: a rendering sibling and a
template using the unsupported filter name `upper_camel`. -/
def mixedPhaseTemplates : List TemplateDocument :=
  [singleExprDoc "pascal", singleExprDoc "upper_camel"]

/-- Witness for C4: with one failing template, the phase fails, the
sibling's output is collected, and so is the failing template's error. -/
theorem generate_phase_partial_failure_witness :
    (runGeneratePhase emptyStore [("name", "hello_world")] mixedPhaseTemplates).status =
      PhaseStatus.Failed ∧
    RenderError.UnknownFilter "upper_camel" ∈
      (runGeneratePhase emptyStore [("name", "hello_world")] mixedPhaseTemplates).errors ∧
    (⟨"out.rs", "HelloWorld"⟩ : RenderedOutput) ∈
      (runGeneratePhase emptyStore [("name", "hello_world")] mixedPhaseTemplates).outputs :=
  ⟨(generate_phase_partial_failure emptyStore [("name", "hello_world")]
      mixedPhaseTemplates (by decide)).2.2.1,
   (generate_phase_partial_failure emptyStore [("name", "hello_world")]
      mixedPhaseTemplates (by decide)).2.2.2.1
      (singleExprDoc "upper_camel") (by decide) _ (by decide),
   (generate_phase_partial_failure emptyStore [("name", "hello_world")]
      mixedPhaseTemplates (by decide)).2.2.2.2
      (singleExprDoc "pascal") (by decide) _ (by decide)⟩

/-- Modelled from the spec: a phase with its `depends_on` set (§3). -/
structure Phase where
  name : String
  depends_on : List String
deriving DecidableEq, Repr

/-- Modelled from the spec: `SchedulerError` (§4.5, §7). -/
inductive SchedulerError where
  | CyclicDependency (members : List String)
  | UnknownPhase (name : String)
deriving DecidableEq, Repr

/-- First phase, in declaration order, whose dependencies are all already
done — declaration order as the fixed tie-break keeps the schedule
deterministic. -/
def readyPhase? (done : List String) (rem : List Phase) : Option Phase :=
  rem.find? (fun p => p.depends_on.all (fun d => done.contains d))

/-- Modelled from the spec: Kahn-style computation of the topological order
(§4.5), fuelled by the phase count; when no remaining phase is ready the
remaining phases are reported as the `CyclicDependency` members. -/
def topoGo : Nat → List String → List Phase → Except SchedulerError (List String)
  | 0, done, rem =>
    if rem.isEmpty then Except.ok done
    else Except.error (SchedulerError.CyclicDependency (rem.map Phase.name))
  | Nat.succ fuel, done, rem =>
    if rem.isEmpty then Except.ok done
    else
      match readyPhase? done rem with
      | none => Except.error (SchedulerError.CyclicDependency (rem.map Phase.name))
      | some p => topoGo fuel (done ++ [p.name]) (rem.filter (fun q => q.name != p.name))

/-- Modelled from the spec: the topological order is computed once at load
time; a dependency cycle is detected then and is fatal (§4.5). -/
def topoSort (phases : List Phase) : Except SchedulerError (List String) :=
  topoGo phases.length [] phases

/-- Initial state for all phases is `Pending` (§4.5). -/
def initialStatuses (phases : List Phase) : List (String × PhaseStatus) :=
  phases.map (fun p => (p.name, PhaseStatus.Pending))

/-- Modelled from the spec: a whole scheduler run — on a load-time cycle
error no phase ever transitions out of `Pending`; otherwise the phases run
in the cached topological order (§4.5). -/
def runAll (phases : List Phase) :
    Except SchedulerError (List String) × List (String × PhaseStatus) :=
  match topoSort phases with
  | Except.error e => (Except.error e, initialStatuses phases)
  | Except.ok order =>
    (Except.ok order, phases.map (fun p => (p.name, PhaseStatus.Succeeded)))

/-- A set of phases that witnesses a dependency cycle: non-empty, within
the graph, and every member depends on some member. -/
abbrev CycleSet (phases c : List Phase) : Prop :=
  c ≠ [] ∧ (∀ p ∈ c, p ∈ phases) ∧ (∀ p ∈ c, ∃ q ∈ c, q.name ∈ p.depends_on)

theorem topoGo_cycle_blocked (c : List Phase) (hcne : c ≠ [])
    (hcdep : ∀ p ∈ c, ∃ q ∈ c, q.name ∈ p.depends_on) :
    ∀ fuel done rem, (rem.map Phase.name).Nodup →
      (∀ p ∈ c, p ∈ rem) → (∀ p ∈ c, p.name ∉ done) →
      ∃ ms, topoGo fuel done rem =
        Except.error (SchedulerError.CyclicDependency ms) := by
  intro fuel
  induction fuel with
  | zero =>
    intro done rem hnd hin hnotdone
    obtain ⟨p0, hp0⟩ := List.exists_mem_of_ne_nil c hcne
    have hremne : ¬ rem.isEmpty = true := by
      intro he
      rw [List.isEmpty_iff] at he
      subst he
      exact absurd (hin p0 hp0) (List.not_mem_nil p0)
    exact ⟨rem.map Phase.name, by simp only [topoGo]; rw [if_neg hremne]⟩
  | succ fuel ih =>
    intro done rem hnd hin hnotdone
    obtain ⟨p0, hp0⟩ := List.exists_mem_of_ne_nil c hcne
    have hremne : ¬ rem.isEmpty = true := by
      intro he
      rw [List.isEmpty_iff] at he
      subst he
      exact absurd (hin p0 hp0) (List.not_mem_nil p0)
    simp only [topoGo]
    rw [if_neg hremne]
    cases hr : readyPhase? done rem with
    | none => exact ⟨rem.map Phase.name, rfl⟩
    | some p =>
      have hr2 : rem.find? (fun q => q.depends_on.all (fun d => done.contains d)) =
          some p := hr
      have hp_rem : p ∈ rem := List.mem_of_find?_eq_some hr2
      have hready : (p.depends_on.all (fun d => done.contains d)) = true := by
        have h0 := List.find?_some hr2
        simpa using h0
      have hpnotc : ∀ q ∈ c, q.name ≠ p.name := by
        intro q hq hqp
        have hq_rem : q ∈ rem := hin q hq
        have hqe : q = p :=
          List.inj_on_of_nodup_map hnd hq_rem hp_rem hqp
        subst hqe
        obtain ⟨q', hq', hdep⟩ := hcdep q hq
        have hcont : done.contains q'.name = true :=
          (List.all_eq_true.mp hready) q'.name hdep
        exact hnotdone q' hq' (by simpa using hcont)
      apply ih
      · exact List.Nodup.sublist
          (List.Sublist.map Phase.name (List.filter_sublist rem)) hnd
      · intro q hq
        refine List.mem_filter.mpr ⟨hin q hq, ?_⟩
        simpa using hpnotc q hq
      · intro q hq
        simp only [List.mem_append, List.mem_singleton, not_or]
        exact ⟨hnotdone q hq, hpnotc q hq⟩

/-- The six lifecycle phases of `make.toml`: `init`, `setup`,
`generate(depends_on=[setup])`, `build(depends_on=[generate])`,
`test(depends_on=[build])`, `deploy(depends_on=[test])`. -/
def lifecyclePhases : List Phase :=
  [⟨"init", []⟩, ⟨"setup", []⟩, ⟨"generate", ["setup"]⟩, ⟨"build", ["generate"]⟩,
   ⟨"test", ["build"]⟩, ⟨"deploy", ["test"]⟩]

/-- The same graph with a dependency from `setup` back to `deploy`. -/
def cyclicLifecycle : List Phase :=
  [⟨"init", []⟩, ⟨"setup", ["deploy"]⟩, ⟨"generate", ["setup"]⟩, ⟨"build", ["generate"]⟩,
   ⟨"test", ["build"]⟩, ⟨"deploy", ["test"]⟩]

/-- The cycle created by that extra dependency. -/
def lifecycleCycle : List Phase :=
  [⟨"setup", ["deploy"]⟩, ⟨"deploy", ["test"]⟩, ⟨"test", ["build"]⟩,
   ⟨"build", ["generate"]⟩, ⟨"generate", ["setup"]⟩]

/-- C3: the six-phase lifecycle graph is scheduled in exactly the order
init, setup, generate, build, test, deploy; any graph with distinct phase
names containing a cycle is rejected at load time with
`SchedulerError.CyclicDependency`; and on the graph with the dependency
from `setup` back to `deploy` the whole run fails that way with every phase
still `Pending`. -/
theorem lifecycle_schedule_spec :
    (topoSort lifecyclePhases =
      Except.ok ["init", "setup", "generate", "build", "test", "deploy"]) ∧
    (∀ phases c, (phases.map Phase.name).Nodup → CycleSet phases c →
      ∃ ms, topoSort phases = Except.error (SchedulerError.CyclicDependency ms)) ∧
    (runAll cyclicLifecycle =
      (Except.error (SchedulerError.CyclicDependency
          ["setup", "generate", "build", "test", "deploy"]),
        initialStatuses cyclicLifecycle)) := by
  refine ⟨by decide, ?_, by decide⟩
  intro phases c hnd ⟨hcne, hcsub, hcdep⟩
  exact topoGo_cycle_blocked c hcne hcdep phases.length [] phases hnd hcsub
    (fun p _ => List.not_mem_nil p.name)

/-- Witness for C3: the general cycle rejection applied to the concrete
setup-to-deploy cycle. -/
theorem lifecycle_schedule_spec_witness :
    ∃ ms, topoSort cyclicLifecycle =
      Except.error (SchedulerError.CyclicDependency ms) :=
  lifecycle_schedule_spec.2.1 cyclicLifecycle lifecycleCycle (by decide) (by decide)

end Engine
